import Mathlib

/-
Verification development for the schema-introspection and normalization engine
of src/ingestion/src/metadata/ingestion/source/sql_source.py.

The Python source is shallowly embedded: each relevant method of SQLSource is
translated into an executable Lean definition over explicit data.  External
collaborators that are not part of the repository under src/ (the SQLAlchemy
inspector, the ColumnTypeParser utility, the fqdn generator, the metadata
catalog client) appear as explicit parameters or as definitions whose doc
comment marks them as modelled from the specification.
-/

namespace OMeta

/-- Column-level constraint enum, mirroring
metadata.generated.schema.entity.data.table.Constraint. -/
inductive Constraint where
  | NULL
  | NOT_NULL
  | UNIQUE
  | PRIMARY_KEY
deriving DecidableEq

/-- Table-level constraint, mirroring TableConstraint from the generated
schema: a constraint type tag plus the participating column names. -/
structure TableConstraint where
  constraintType : String
  columns : List String
deriving DecidableEq

/-- Canonical column entity, mirroring the fields of the generated Column
model that sql_source.py populates.  Canonical data types are the uppercase
enum-name strings the code compares against (the code mixes strings and
DataType members; DataType.VARCHAR.name is the string VARCHAR). -/
structure Column where
  name : String
  description : Option String := none
  dataType : Option String := none
  dataTypeDisplay : Option String := none
  dataLength : Option Nat := none
  constraint : Option Constraint := none
  arrayDataType : Option String := none
deriving DecidableEq

/-- One raw column as returned by inspector.get_columns: the driver-supplied
name, the str() of the type object, the repr() of the type object, the
optional length attribute of the type object (none models a missing attribute
or a None value), nullability, the optional raw_data_type entry, and the
optional comment. -/
structure RawColumn where
  name : String
  typeStr : String
  typeRepr : String := ""
  typeLength : Option Nat := none
  nullable : Bool
  rawDataType : Option String := none
  comment : Option String := none
deriving DecidableEq

/-- Result of ColumnTypeParser._parse_datatype_string as sql_source.py uses
it: a dict carrying at least dataType, and optionally a display string and an
array element type.  The code overwrites dataLength and name itself, so those
keys are not modelled here. -/
structure ParsedString where
  dataType : String
  dataTypeDisplay : Option String := none
  arrayDataType : Option String := none

/-- Modelled from the spec: interface of metadata.utils.column_type_parser.
ColumnTypeParser, which is not under src/.  get_column_type classifies a
native type descriptor into the canonical uppercase enum name, returning none
when the descriptor is unrecognized (spec 4.1: unknown types must fall back);
an error value models the call raising.  parse_datatype_string handles the
raw DDL-like descriptors and parse_primitive_datatype_string classifies a
primitive descriptor.  Theorems quantify over this interface; concrete
instances used by witnesses fix particular outputs faithful to spec 4.1. -/
structure ColumnTypeParser where
  getColumnType : String → Except Unit (Option String)
  parseDatatypeString : String → ParsedString
  parsePrimitiveDatatypeString : String → String

/-- Python str.startswith on character lists (first the string, then the
candidate leading piece). -/
def starts_with_chars : List Char → List Char → Bool
  | _, [] => true
  | [], _ :: _ => false
  | c :: cs, d :: ds => c == d && starts_with_chars cs ds

/-- Python str.startswith. -/
def py_startswith (s t : String) : Bool := starts_with_chars s.toList t.toList

/-- Python str.upper (ASCII range, which covers every canonical type name
compared in the source). -/
def py_upper (s : String) : String := String.mk (s.toList.map Char.toUpper)

/-- Python str.lower (ASCII range). -/
def py_lower (s : String) : String := String.mk (s.toList.map Char.toLower)

/-- Python str.replace for a single-character pattern and replacement. -/
def replace_char (a b : Char) (l : List Char) : List Char :=
  l.map (fun c => if c = a then b else c)

/-- Python str.replace of the two-character pattern consisting of an opening
and a closing angle bracket by the empty string: the left-to-right
non-overlapping removal of every such adjacent pair. -/
def remove_angle_pair : List Char → List Char
  | [] => []
  | '<' :: '>' :: rest => remove_angle_pair rest
  | c :: rest => c :: remove_angle_pair rest

/-- Python regex word character, as used by the two raw regular expressions
in SQLSource._get_columns (ASCII range, which covers all inputs considered
here). -/
def wordChar (c : Char) : Bool := c.isAlphanum || c = '_'

/-- Embedding of re.match applied to the first _get_columns regex, which
requires a run of word characters followed by a literal opening parenthesis.
Backtracking makes the match succeed exactly when the character right after
the maximal word-character run is an opening parenthesis; the result is the
captured group of the second regex form is computed separately. -/
def arrayTypeMatch (s : String) : Option Unit :=
  match s.toList.dropWhile wordChar with
  | '(' :: _ => some ()
  | _ => none

/-- Embedding of the capture group of the second _get_columns regex, whose
parenthesis class is starred: the maximal word-character run found after
skipping the leading word characters and any run of opening parentheses. -/
def arrayItemMatch (s : String) : String :=
  let rest := (s.toList.dropWhile wordChar).dropWhile (fun c => c = '(')
  String.mk (rest.takeWhile wordChar)

/-- Embedding of SQLSource._check_col_length: only the four bounded text and
binary canonical types get a length; for those, a missing or falsy length
attribute on the raw type object becomes 1.  Any other data type falls off
the end of the Python function, returning None. -/
def check_col_length (datatype : Option String) (typeLength : Option Nat) :
    Option Nat :=
  match datatype with
  | none => none
  | some dt =>
    if dt ≠ "" ∧ (py_upper dt = "CHAR" ∨ py_upper dt = "VARCHAR" ∨
        py_upper dt = "BINARY" ∨ py_upper dt = "VARBINARY") then
      some (match typeLength with
            | some l => if l = 0 then 1 else l
            | none => 1)
    else none

/-- Embedding of SQLSource._get_column_constraints: base constraint from
nullability, overridden by PRIMARY_KEY for a member of a single-column
primary key, by nothing (an early None return) for a member of a multi-column
primary key, and by UNIQUE for a member of a unique-constraint set. -/
def get_column_constraints (nullable : Bool) (name : String)
    (pk_columns unique_columns : List String) : Option Constraint :=
  let constraint := if nullable then some Constraint.NULL
                    else some Constraint.NOT_NULL
  if name ∈ pk_columns then
    if 1 < pk_columns.length then none
    else some Constraint.PRIMARY_KEY
  else if name ∈ unique_columns then some Constraint.UNIQUE
  else constraint

/-- Outcome of extracting one column: the built Column, whether this column
set the shared table_constraints field (line 781 of the source: constraint
resolved to None while the primary key has more than one column), and whether
the unknown-type warning was logged (line 794). -/
structure ExtractedColumn where
  column : Column
  setsTableConstraint : Bool
  unknownTypeWarning : Bool
deriving DecidableEq

/-- Embedding of the generic (parsed_string is None) column build inside
SQLSource._get_columns, lines 775 to 823.  ct is the ColumnTypeParser result
for the column type; arr_data_type0 and data_type_display0 are the values the
optional ARRAY regex branch assigned earlier (data_type_display0 carries the
str of the type object when set; the object itself is always truthy). -/
def generic_column (pk_columns unique_columns : List String) (c : RawColumn)
    (ct : Option String) (arr_data_type0 : Option String)
    (data_type_display0 : Option String) : ExtractedColumn :=
  let col_constraint := get_column_constraints c.nullable c.name pk_columns
    unique_columns
  let sets_tc : Bool := col_constraint.isNone && decide (1 < pk_columns.length)
  let col_data_length := check_col_length ct c.typeLength
  let unknown : Bool := decide (ct = none ∨ ct = some "NULL")
  let col_type : String := if unknown then "VARCHAR" else ct.getD ""
  let data_type_display1 := if unknown then some "varchar"
                            else data_type_display0
  let dtd :=
    match data_type_display1 with
    | some d => d
    | none =>
      match col_data_length with
      | some l => if l = 0 then col_type
                  else col_type ++ "(" ++ toString l ++ ")"
      | none => col_type
  let col_data_length2 := col_data_length.getD 1
  let arr_data_type := if col_type = "ARRAY"
                       then some (arr_data_type0.getD "VARCHAR")
                       else arr_data_type0
  let dtd2 := if col_type = "ARRAY"
              then "array<" ++ arr_data_type0.getD "VARCHAR" ++ ">"
              else dtd
  { column := { name := c.name, description := c.comment,
                dataType := some col_type, dataTypeDisplay := some dtd2,
                dataLength := some col_data_length2,
                constraint := col_constraint, arrayDataType := arr_data_type },
    setsTableConstraint := sets_tc, unknownTypeWarning := unknown }

/-- Embedding of the raw_data_type column build inside SQLSource._get_columns,
lines 824 to 882: the parsed dict gets its dataLength overwritten by
_check_col_length, and when the raw descriptor is exactly the word array the
display string is synthesized from the repr of the type object and the
element type reparsed from its slice.  The parsed dict carries no constraint
key, so the built column has no column constraint.  The policy-tag side
branch only attaches tag labels and is not modelled. -/
def raw_column_extract (p : ColumnTypeParser) (c : RawColumn) (r : String) :
    ExtractedColumn :=
  let ps := p.parseDatatypeString r
  let data_length := check_col_length (some ps.dataType) c.typeLength
  let pair :=
    if r = "array" then
      let dispChars := (remove_angle_pair (replace_char '=' ':'
        (replace_char ')' '>' (replace_char '(' '<'
          c.typeRepr.toList)))).map Char.toLower
      (some (String.mk dispChars),
       some (p.parsePrimitiveDatatypeString
         (String.mk (dispChars.drop 6).dropLast)))
    else (ps.dataTypeDisplay, ps.arrayDataType)
  { column := { name := c.name, description := none,
                dataType := some ps.dataType, dataTypeDisplay := pair.1,
                dataLength := data_length, constraint := none,
                arrayDataType := pair.2 },
    setsTableConstraint := false, unknownTypeWarning := false }

/-- Embedding of the per-column body of SQLSource._get_columns, lines 740 to
887.  A raw_data_type that starts with the schema name leaves parsed_string
unset and falls into the generic build; an absent raw_data_type runs the
ARRAY regex branch first.  An error result models the per-column body
raising, which the source catches and answers by skipping the column; the
only raising calls modelled are the ColumnTypeParser invocations, which in
the source happen before any state mutation of the loop. -/
def extract_column (p : ColumnTypeParser) (schema : String)
    (pk_columns unique_columns : List String) (c : RawColumn) :
    Except Unit ExtractedColumn :=
  match c.rawDataType with
  | some r =>
    if py_startswith r schema then
      match p.getColumnType c.typeStr with
      | .error e => .error e
      | .ok ct => .ok (generic_column pk_columns unique_columns c ct none none)
    else
      .ok (raw_column_extract p c r)
  | none =>
    match p.getColumnType c.typeStr with
    | .error e => .error e
    | .ok ct =>
      if ct = some "ARRAY" ∧ (arrayTypeMatch c.typeStr).isSome then
        match p.getColumnType (arrayItemMatch c.typeStr) with
        | .error e => .error e
        | .ok elemT =>
          .ok (generic_column pk_columns unique_columns c ct elemT
            (some c.typeStr))
      else .ok (generic_column pk_columns unique_columns c ct none none)

/-- The Column produced for a raw column, none when the per-column body
raises and the column is skipped. -/
def extracted_column (p : ColumnTypeParser) (schema : String)
    (pk_columns unique_columns : List String) (c : RawColumn) :
    Option Column :=
  match extract_column p schema pk_columns unique_columns c with
  | .ok ec => some ec.column
  | .error _ => none

/-- Whether processing this raw column assigns the shared table_constraints
field; false when the column is skipped. -/
def sets_table_constraint (p : ColumnTypeParser) (schema : String)
    (pk_columns unique_columns : List String) (c : RawColumn) : Bool :=
  match extract_column p schema pk_columns unique_columns c with
  | .ok ec => ec.setsTableConstraint
  | .error _ => false

/-- Result of SQLSource._get_columns: the ordered extracted columns plus the
final value of the shared table_constraints instance field (None when no
column assigned it; fetch_tables resets it to None before each table). -/
structure ColumnsResult where
  columns : List Column
  tableConstraints : Option (List TableConstraint)
deriving DecidableEq

/-- The column loop of SQLSource._get_columns: a raising column body leaves
the accumulated state untouched and continues; a successful body first
possibly assigns table_constraints (always to the one-element list holding
the composite primary key) and then appends the built column. -/
def get_columns_aux (p : ColumnTypeParser) (schema : String)
    (pk_columns unique_columns : List String) :
    List RawColumn → ColumnsResult → ColumnsResult
  | [], acc => acc
  | c :: rest, acc =>
    match extract_column p schema pk_columns unique_columns c with
    | .error _ => get_columns_aux p schema pk_columns unique_columns rest acc
    | .ok ec =>
      get_columns_aux p schema pk_columns unique_columns rest
        { columns := acc.columns ++ [ec.column],
          tableConstraints :=
            if ec.setsTableConstraint then
              some [{ constraintType := "PRIMARY_KEY", columns := pk_columns }]
            else acc.tableConstraints }

/-- Embedding of SQLSource._get_columns for a table: pk_columns is the
constrained_columns list of the primary-key constraint (an absent or empty
entry behaves as the empty collection) and unique_columns the flattened
column_names of the unique constraints, both exactly as the preamble of the
source computes them. -/
def get_columns (p : ColumnTypeParser) (schema : String)
    (pk_columns unique_columns : List String) (rawColumns : List RawColumn) :
    ColumnsResult :=
  get_columns_aux p schema pk_columns unique_columns rawColumns
    { columns := [], tableConstraints := none }

/-- Canonical table entity: the fields of the generated Table model that
fetch_tables and fetch_views populate and the claims mention.  Sample data,
profiling and the data-model attachment are best-effort side channels the
claims do not touch and are left out. -/
structure TableEntity where
  name : String
  tableType : String
  description : String
  columns : List Column
  tableConstraints : Option (List TableConstraint)
  viewDefinition : Option String := none
deriving DecidableEq

/-- Modelled from the spec: metadata.utils.fqdn_generator.get_fqdn is not
under src/; per the glossary a fully qualified name is the dot-joined path
service.database.schema.table. -/
def get_fqdn (service database schema table : String) : String :=
  service ++ "." ++ database ++ "." ++ schema ++ "." ++ table

/-- The SQLSourceStatus accumulator together with the per-schema observed-name
set database_source_state and the sequence of yielded table entities. -/
structure WalkState where
  success : List String
  failures : List String
  warnings : List String
  filtered : List String
  sourceState : List String
  yielded : List TableEntity
deriving DecidableEq

/-- An all-empty walk state, matching a fresh SQLSourceStatus and a cleared
database_source_state. -/
def walk0 : WalkState :=
  { success := [], failures := [], warnings := [], filtered := [],
    sourceState := [], yielded := [] }

instance instDecEqExcept {ε α : Type} [DecidableEq ε] [DecidableEq α] :
    DecidableEq (Except ε α) := fun a b => by
  cases a <;> cases b
  case error.error e f =>
    exact if h : e = f then isTrue (by rw [h])
          else isFalse (fun hh => by cases hh; exact h rfl)
  case error.ok e x => exact isFalse (fun hh => by cases hh)
  case ok.error x e => exact isFalse (fun hh => by cases hh)
  case ok.ok x y =>
    exact if h : x = y then isTrue (by rw [h])
          else isFalse (fun hh => by cases hh; exact h rfl)

/-- The per-table data of fetch_tables that the inspector and configuration
supply: the table name, the table-filter verdict, the outcome of the
description fetch (an error models get_table_comment raising, which
_get_table_description swallows into None), the constraint inputs, the raw
columns, and a flag modelling any other exception inside the per-table try
block (constraint fetch, entity construction, registration). -/
structure TableBuildInput where
  tableName : String
  filteredOut : Bool
  descFetch : Except Unit (Option String)
  pkColumns : List String
  uniqueColumns : List String
  rawColumns : List RawColumn
  otherFailure : Bool
deriving DecidableEq

/-- The per-view data of fetch_views.  viewDefFetch error models the
NotImplementedError branch, answered with an empty definition; other
exceptions of the per-view body are modelled by otherFailure. -/
structure ViewBuildInput where
  viewName : String
  filteredOut : Bool
  viewDefFetch : Except Unit (Option String)
  descFetch : Except Unit (Option String)
  pkColumns : List String
  uniqueColumns : List String
  rawColumns : List RawColumn
  otherFailure : Bool
deriving DecidableEq

/-- Outcome of the body of fetch_tables or fetch_views for one entity. -/
inductive TableOutcome where
  | filtered
  | failed
  | yielded (t : TableEntity)
deriving DecidableEq

/-- Embedding of the per-table body of SQLSource.fetch_tables, lines 408 to
469: the table filter first (_is_partition of this class is constantly
False), then the best-effort description whose None is replaced by a
one-space string, then the column extraction with the table_constraints
side channel reset, then the entity assembly. -/
def process_table (p : ColumnTypeParser) (schema : String)
    (inp : TableBuildInput) : TableOutcome :=
  if inp.filteredOut then .filtered
  else if inp.otherFailure then .failed
  else
    let description := match inp.descFetch with
                       | .error _ => none
                       | .ok t => t
    let res := get_columns p schema inp.pkColumns inp.uniqueColumns
      inp.rawColumns
    .yielded { name := inp.tableName, tableType := "Regular",
               description := description.getD " ",
               columns := res.columns,
               tableConstraints := res.tableConstraints }

/-- Embedding of the per-view body of SQLSource.fetch_views, lines 486 to
547: the view filter, the view definition (empty on a None result or a
NotImplementedError), the description ored with the empty string, and the
column extraction. -/
def process_view (p : ColumnTypeParser) (schema : String)
    (inp : ViewBuildInput) : TableOutcome :=
  if inp.filteredOut then .filtered
  else if inp.otherFailure then .failed
  else
    let viewDefinition := match inp.viewDefFetch with
                          | .error _ => ""
                          | .ok v => v.getD ""
    let description := match inp.descFetch with
                       | .error _ => none
                       | .ok t => t
    let res := get_columns p schema inp.pkColumns inp.uniqueColumns
      inp.rawColumns
    .yielded { name := inp.viewName, tableType := "View",
               description := description.getD "",
               columns := res.columns,
               tableConstraints := res.tableConstraints,
               viewDefinition := some viewDefinition }

/-- One iteration of the fetch_tables loop: a filtered table goes to
status.filtered under the service-qualified short name, a raising body
appends the same short name to status.failures and continues, and a built
table is registered (its full name added to the observed set and to
status.success) and yielded. -/
def table_step (p : ColumnTypeParser) (service database schema : String)
    (st : WalkState) (inp : TableBuildInput) : WalkState :=
  match process_table p schema inp with
  | .filtered =>
    { st with filtered := st.filtered ++ [service ++ "." ++ inp.tableName] }
  | .failed =>
    { st with failures := st.failures ++ [service ++ "." ++ inp.tableName] }
  | .yielded t =>
    let fqn := get_fqdn service database schema inp.tableName
    { st with success := st.success ++ [fqn],
              sourceState := st.sourceState ++ [fqn],
              yielded := st.yielded ++ [t] }

/-- Embedding of SQLSource.fetch_tables over the inspector's table list. -/
def fetch_tables (p : ColumnTypeParser) (service database schema : String) :
    List TableBuildInput → WalkState → WalkState
  | [], st => st
  | inp :: rest, st =>
    fetch_tables p service database schema rest
      (table_step p service database schema st inp)

/-- One iteration of the fetch_views loop.  A raising per-view body appends
the service-qualified view name to status.warnings, not to failures, and
continues. -/
def view_step (p : ColumnTypeParser) (service database schema : String)
    (st : WalkState) (inp : ViewBuildInput) : WalkState :=
  match process_view p schema inp with
  | .filtered =>
    { st with filtered := st.filtered ++ [service ++ "." ++ inp.viewName] }
  | .failed =>
    { st with warnings := st.warnings ++ [service ++ "." ++ inp.viewName] }
  | .yielded t =>
    let fqn := get_fqdn service database schema inp.viewName
    { st with success := st.success ++ [fqn],
              sourceState := st.sourceState ++ [fqn],
              yielded := st.yielded ++ [t] }

/-- Embedding of SQLSource.fetch_views over the inspector's view list. -/
def fetch_views (p : ColumnTypeParser) (service database schema : String) :
    List ViewBuildInput → WalkState → WalkState
  | [], st => st
  | inp :: rest, st =>
    fetch_views p service database schema rest
      (view_step p service database schema st inp)

/-- A previously cataloged table as returned by metadata.list_entities. -/
structure CatalogTable where
  fullyQualifiedName : String
deriving DecidableEq

/-- The DeleteTable marker yielded by SQLSource.delete_tables. -/
structure DeleteTable where
  table : CatalogTable
deriving DecidableEq

/-- Embedding of SQLSource._build_database_state: the catalog collaborator is
represented by the finite sequence of pages its listing returns while the
continuation cursor is followed; a response whose cursor is None is the last
element.  The loop extends the accumulator with every page in order. -/
def build_database_state (pages : List (List CatalogTable)) :
    List CatalogTable :=
  match pages with
  | [] => []
  | page :: rest => page ++ build_database_state rest

/-- Embedding of the generator SQLSource.delete_tables: one DeleteTable per
previously known table whose fully qualified name is not in the observed
database_source_state. -/
def delete_tables (database_state : List CatalogTable)
    (source_state : List String) : List DeleteTable :=
  match database_state with
  | [] => []
  | t :: rest =>
    if t.fullyQualifiedName ∈ source_state then
      delete_tables rest source_state
    else { table := t } :: delete_tables rest source_state

/-- Python str.split on the dot separator with a bound on the number of
splits: while the bound is positive, a dot closes the current piece; once it
reaches zero, the remaining characters (dots included) flow into the final
piece. -/
def split_dot_bounded : List Char → Nat → List Char → List (List Char)
  | [], _, acc => [acc.reverse]
  | c :: rest, bound, acc =>
    if c = '.' then
      match bound with
      | 0 => split_dot_bounded rest 0 (c :: acc)
      | b + 1 => acc.reverse :: split_dot_bounded rest b []
    else split_dot_bounded rest bound (c :: acc)

/-- Python str.split with separator dot and maxsplit 2, as applied to a dbt
dependency reference in SQLSource._parse_data_model_upstream. -/
def py_split_dot_2 (s : String) : List String :=
  (split_dot_bounded s.toList 2 []).map String.mk

/-- Modelled from the spec: the fully qualified name SQLSource derives for an
upstream dbt table through get_fqdn (not under src/) from the service name
and the table name alone, lowercased by the caller. -/
def dbt_table_fqdn (service table : String) : String :=
  py_lower (service ++ "." ++ table)

/-- Embedding of the per-dependency body of
SQLSource._parse_data_model_upstream: the reference is split into three
pieces on at most two dots; a reference without enough pieces makes the
triple unpacking raise, which the source logs and skips. -/
def parse_upstream_node (service node : String) : Option String :=
  match py_split_dot_2 node with
  | [_, _, table] => some (dbt_table_fqdn service table)
  | _ => none

/-- Embedding of SQLSource._parse_data_model_upstream: an absent depends_on
or nodes key yields the empty upstream list, otherwise each dependency
reference is resolved independently and failures are skipped. -/
def parse_data_model_upstream (service : String)
    (dependsOnNodes : Option (List String)) : List String :=
  match dependsOnNodes with
  | none => []
  | some nodes => nodes.filterMap (parse_upstream_node service)

/-- Modelled from the spec: a concrete ColumnTypeParser instance used by
witnesses and counterexamples, since the real ColumnTypeParser is not under
src/.  Spec 4.1 fixes that descriptors are classified into the uppercase
canonical enum (ARRAY for array descriptors, STRUCT for struct descriptors,
VARCHAR and INT for the usual scalars) and that unrecognized descriptors
yield no type; this instance additionally raises on one designated
descriptor to exercise the per-column error path. -/
def specParser : ColumnTypeParser where
  getColumnType s :=
    if s = "boom_type" then .error ()
    else .ok (if s = "array<varchar(50)>" then some "ARRAY"
              else if s = "ARRAY(VARCHAR(50))" then some "ARRAY"
              else if s = "VARCHAR" then some "VARCHAR"
              else if s = "VARCHAR(50)" then some "VARCHAR"
              else if s = "INTEGER" then some "INT"
              else none)
  parseDatatypeString s :=
    if s = "struct<a:int>" then { dataType := "STRUCT" }
    else { dataType := "VARCHAR" }
  parsePrimitiveDatatypeString _ := "VARCHAR"

section Lemmas

variable (p : ColumnTypeParser) (schema : String)
variable (pk_columns unique_columns : List String)

lemma get_columns_aux_columns (rs : List RawColumn) :
    ∀ acc : ColumnsResult,
      (get_columns_aux p schema pk_columns unique_columns rs acc).columns
        = acc.columns
          ++ rs.filterMap (extracted_column p schema pk_columns unique_columns) := by
  induction rs with
  | nil => intro acc; simp [get_columns_aux]
  | cons c rest ih =>
    intro acc
    unfold get_columns_aux
    cases h : extract_column p schema pk_columns unique_columns c with
    | error e =>
      simp [List.filterMap_cons, extracted_column, h, ih]
    | ok ec =>
      simp [List.filterMap_cons, extracted_column, h, ih]

lemma get_columns_aux_tc (rs : List RawColumn) :
    ∀ acc : ColumnsResult,
      (get_columns_aux p schema pk_columns unique_columns rs acc).tableConstraints
        = if rs.any (sets_table_constraint p schema pk_columns unique_columns)
          then some [{ constraintType := "PRIMARY_KEY", columns := pk_columns }]
          else acc.tableConstraints := by
  induction rs with
  | nil => intro acc; simp [get_columns_aux]
  | cons c rest ih =>
    intro acc
    unfold get_columns_aux
    cases h : extract_column p schema pk_columns unique_columns c with
    | error e =>
      simp only [List.any_cons, sets_table_constraint, h, Bool.false_or, ih]
    | ok ec =>
      rw [ih]
      simp only [List.any_cons, sets_table_constraint, h]
      by_cases hs : ec.setsTableConstraint <;>
        by_cases hr : rest.any (sets_table_constraint p schema pk_columns unique_columns) <;>
        simp [hs, hr]

lemma extract_generic_spec {c : RawColumn} {ec : ExtractedColumn}
    (hraw : c.rawDataType = none)
    (h : extract_column p schema pk_columns unique_columns c = .ok ec) :
    ec.column.name = c.name
    ∧ ec.column.constraint
        = get_column_constraints c.nullable c.name pk_columns unique_columns
    ∧ ec.setsTableConstraint
        = ((get_column_constraints c.nullable c.name pk_columns
            unique_columns).isNone && decide (1 < pk_columns.length)) := by
  unfold extract_column at h
  rw [hraw] at h
  cases hct : p.getColumnType c.typeStr with
  | error e => rw [hct] at h; cases h
  | ok ct =>
    rw [hct] at h
    dsimp only at h
    by_cases hc : ct = some "ARRAY" ∧ (arrayTypeMatch c.typeStr).isSome
    · rw [if_pos hc] at h
      cases he : p.getColumnType (arrayItemMatch c.typeStr) with
      | error e => rw [he] at h; cases h
      | ok elemT =>
        rw [he] at h
        cases h
        exact ⟨rfl, rfl, rfl⟩
    · rw [if_neg hc] at h
      cases h
      exact ⟨rfl, rfl, rfl⟩

lemma extract_generic_dataLength {c : RawColumn} {ec : ExtractedColumn}
    (hraw : c.rawDataType = none)
    (h : extract_column p schema pk_columns unique_columns c = .ok ec) :
    ∃ ct, p.getColumnType c.typeStr = .ok ct
      ∧ ec.column.dataLength
          = some ((check_col_length ct c.typeLength).getD 1) := by
  unfold extract_column at h
  rw [hraw] at h
  cases hct : p.getColumnType c.typeStr with
  | error e => rw [hct] at h; cases h
  | ok ct =>
    rw [hct] at h
    dsimp only at h
    refine ⟨ct, rfl, ?_⟩
    by_cases hc : ct = some "ARRAY" ∧ (arrayTypeMatch c.typeStr).isSome
    · rw [if_pos hc] at h
      cases he : p.getColumnType (arrayItemMatch c.typeStr) with
      | error e => rw [he] at h; cases h
      | ok elemT => rw [he] at h; cases h; rfl
    · rw [if_neg hc] at h
      cases h
      rfl

lemma gcc_single_pk {name : String} (nullable : Bool)
    (hlen : pk_columns.length = 1) :
    (get_column_constraints nullable name pk_columns unique_columns
      = some Constraint.PRIMARY_KEY) ↔ name ∈ pk_columns := by
  unfold get_column_constraints
  by_cases hpk : name ∈ pk_columns
  · simp [hpk, hlen]
  · by_cases hu : name ∈ unique_columns <;>
      cases nullable <;> simp [hpk, hu]

lemma gcc_multi_pk {name : String} (nullable : Bool)
    (hpk : name ∈ pk_columns) (hlen : 1 < pk_columns.length) :
    get_column_constraints nullable name pk_columns unique_columns = none := by
  unfold get_column_constraints
  simp [hpk, hlen]

lemma gcc_not_pk_ne {name : String} (nullable : Bool)
    (hpk : name ∉ pk_columns) :
    get_column_constraints nullable name pk_columns unique_columns
      ≠ some Constraint.PRIMARY_KEY := by
  unfold get_column_constraints
  by_cases hu : name ∈ unique_columns <;>
    cases nullable <;> simp [hpk, hu]

lemma gcc_isNone_iff {name : String} (nullable : Bool) :
    (get_column_constraints nullable name pk_columns unique_columns).isNone
      = (decide (name ∈ pk_columns) && decide (1 < pk_columns.length)) := by
  unfold get_column_constraints
  by_cases hpk : name ∈ pk_columns
  · by_cases hlen : 1 < pk_columns.length <;> simp [hpk, hlen]
  · by_cases hu : name ∈ unique_columns <;>
      cases nullable <;> simp [hpk, hu]

lemma length_filterMap_of_all_some {α β : Type} (f : α → Option β) :
    ∀ l : List α, (∀ c ∈ l, (f c).isSome) → (l.filterMap f).length = l.length := by
  intro l
  induction l with
  | nil => intro _; simp
  | cons a rest ih =>
    intro hall
    have ha := hall a (by simp)
    cases hfa : f a with
    | none => rw [hfa] at ha; cases ha
    | some b =>
      simp only [List.filterMap_cons, hfa, List.length_cons]
      rw [ih (fun c hc => hall c (by simp [hc]))]

end Lemmas

lemma delete_tables_mem (obs : List String) (d : DeleteTable) :
    ∀ l : List CatalogTable,
      d ∈ delete_tables l obs
        ↔ d.table ∈ l ∧ d.table.fullyQualifiedName ∉ obs := by
  intro l
  induction l with
  | nil => simp [delete_tables]
  | cons t rest ih =>
    unfold delete_tables
    by_cases ht : t.fullyQualifiedName ∈ obs
    · rw [if_pos ht, ih]
      constructor
      · rintro ⟨hm, hn⟩
        exact ⟨List.mem_cons_of_mem _ hm, hn⟩
      · rintro ⟨hm, hn⟩
        rcases List.mem_cons.mp hm with he | hm2
        · exact absurd (he ▸ ht) hn
        · exact ⟨hm2, hn⟩
    · rw [if_neg ht]
      constructor
      · intro hd
        rcases List.mem_cons.mp hd with he | hd2
        · refine ⟨List.mem_cons.mpr (Or.inl ?_), ?_⟩
          · rw [he]
          · rw [he]; exact ht
        · rcases ih.mp hd2 with ⟨hm, hn⟩
          exact ⟨List.mem_cons_of_mem _ hm, hn⟩
      · rintro ⟨hm, hn⟩
        rcases List.mem_cons.mp hm with he | hm2
        · refine List.mem_cons.mpr (Or.inl ?_)
          cases d
          simp only at he
          rw [he]
        · exact List.mem_cons_of_mem _ (ih.mpr ⟨hm2, hn⟩)

lemma mem_get_columns {p : ColumnTypeParser} {schema : String}
    {pk_columns unique_columns : List String} {rs : List RawColumn}
    {col : Column}
    (h : col ∈ (get_columns p schema pk_columns unique_columns rs).columns) :
    ∃ c ∈ rs, ∃ ec, extract_column p schema pk_columns unique_columns c = .ok ec
      ∧ ec.column = col := by
  unfold get_columns at h
  rw [get_columns_aux_columns] at h
  simp only [List.nil_append] at h
  rcases List.mem_filterMap.mp h with ⟨c, hc, hfc⟩
  refine ⟨c, hc, ?_⟩
  unfold extracted_column at hfc
  cases hx : extract_column p schema pk_columns unique_columns c with
  | error e => rw [hx] at hfc; cases hfc
  | ok ec => rw [hx] at hfc; exact ⟨ec, rfl, Option.some.inj hfc⟩

lemma get_columns_tc (p : ColumnTypeParser) (schema : String)
    (pk_columns unique_columns : List String) (rs : List RawColumn) :
    (get_columns p schema pk_columns unique_columns rs).tableConstraints
      = if rs.any (sets_table_constraint p schema pk_columns unique_columns)
        then some [{ constraintType := "PRIMARY_KEY", columns := pk_columns }]
        else none := by
  unfold get_columns
  rw [get_columns_aux_tc]

/-- Claim C10: a column whose name belongs to a primary-key set with more
than one member resolves to no column constraint at all, regardless of its
nullability and of any unique-constraint membership. -/
theorem claim10_composite_pk_no_constraint (nullable : Bool) (name : String)
    (pk_columns unique_columns : List String)
    (hpk : name ∈ pk_columns) (hlen : 1 < pk_columns.length) :
    get_column_constraints nullable name pk_columns unique_columns = none :=
  gcc_multi_pk pk_columns unique_columns nullable hpk hlen

theorem claim10_composite_pk_no_constraint_witness :
    "a" ∈ ["a", "b"] ∧ 1 < (["a", "b"] : List String).length ∧
    get_column_constraints true "a" ["a", "b"] ["a"] = none :=
  ⟨by decide, by decide,
   claim10_composite_pk_no_constraint true "a" ["a", "b"] ["a"]
     (by decide) (by decide)⟩

/-- Claim C2: when the type parser yields no canonical type or the string
NULL for a column taking the generic path, extraction still succeeds, the
resulting canonical data type is VARCHAR, and the unknown-type warning is
logged. -/
theorem claim2_unknown_type_varchar (p : ColumnTypeParser) (schema : String)
    (pk_columns unique_columns : List String) (c : RawColumn)
    (hraw : c.rawDataType = none)
    (hct : p.getColumnType c.typeStr = .ok none
           ∨ p.getColumnType c.typeStr = .ok (some "NULL")) :
    ∃ ec, extract_column p schema pk_columns unique_columns c = .ok ec
      ∧ ec.column.dataType = some "VARCHAR"
      ∧ ec.unknownTypeWarning = true := by
  unfold extract_column
  rw [hraw]
  rcases hct with hct | hct <;> rw [hct] <;> dsimp only <;>
    rw [if_neg (fun h => absurd h.1 (by decide))] <;>
    exact ⟨_, rfl, by simp [generic_column], by simp [generic_column]⟩

theorem claim2_unknown_type_varchar_witness :
    (RawColumn.rawDataType
        { name := "c", typeStr := "mystery", nullable := true } = none)
    ∧ specParser.getColumnType "mystery" = .ok none
    ∧ ∃ ec, extract_column specParser "sch" [] []
          { name := "c", typeStr := "mystery", nullable := true } = .ok ec
        ∧ ec.column.dataType = some "VARCHAR"
        ∧ ec.unknownTypeWarning = true :=
  ⟨rfl, by decide,
   claim2_unknown_type_varchar specParser "sch" [] []
     { name := "c", typeStr := "mystery", nullable := true } rfl
     (Or.inl (by decide))⟩

/-- A primary-key column whose driver entry carries a raw_data_type that
does not start with the schema name, so it is extracted through the
raw_data_type path of _get_columns. -/
def c1rawpk : RawColumn :=
  { name := "a", typeStr := "VARCHAR(50)", nullable := false,
    rawDataType := some "varchar" }

/-- A second such raw-path primary-key column. -/
def c1rawpk_b : RawColumn :=
  { name := "b", typeStr := "VARCHAR(50)", nullable := false,
    rawDataType := some "varchar" }

/-- The extraction outcome of c1rawpk under specParser: the parsed dict has
no constraint key, so the built column carries no constraint. -/
def c1rawec : ExtractedColumn :=
  { column := { name := "a", dataType := some "VARCHAR",
                dataTypeDisplay := none, dataLength := some 1,
                constraint := none, arrayDataType := none },
    setsTableConstraint := false, unknownTypeWarning := false }

/-- Counterexample to claim C1 as stated: a table whose primary-key column
is delivered with a raw_data_type descriptor takes the raw path of
_get_columns, where the built column carries no constraint at all — so with
the single-member primary-key set the column does not carry PRIMARY_KEY —
and a table with a two-member primary-key set whose two primary-key columns
both take the raw path has no column assigning the table-level constraint,
so no TableConstraint is emitted. -/
theorem claim1_counterexample :
    extract_column specParser "sch" ["a"] [] c1rawpk = .ok c1rawec
    ∧ c1rawec.column.name = "a"
    ∧ c1rawec.column.constraint = none
    ∧ (get_columns specParser "sch" ["a"] [] [c1rawpk]).tableConstraints
        = none
    ∧ (get_columns specParser "sch" ["a", "b"] []
        [c1rawpk, c1rawpk_b]).columns.map Column.constraint = [none, none]
    ∧ (get_columns specParser "sch" ["a", "b"] []
        [c1rawpk, c1rawpk_b]).tableConstraints = none := by
  refine ⟨by decide, by decide, by decide, by decide, by decide, by decide⟩

/-- Claim C1 as amended: primary-key representation is mutually exclusive
over the columns extracted through the generic inspection path.  With a
single-column primary key, a generic-path column resolves to the PRIMARY_KEY
constraint exactly when it is the primary-key column and no table-level
constraint is assigned; with a multi-column primary key, no column resolves
to PRIMARY_KEY and, as soon as at least one primary-key column is present
among the successfully extracted generic-path columns, the one table-level
PRIMARY_KEY constraint over the whole primary-key column list is assigned.
A column extracted through the raw_data_type path instead carries no
constraint and never assigns the table-level constraint, which is why the
exclusivity fails on that path. -/
theorem claim1_pk_representation :
    (∀ (p : ColumnTypeParser) (schema : String)
       (pk_columns unique_columns : List String) (rs : List RawColumn),
      (∀ c ∈ rs, c.rawDataType = none) →
      pk_columns.length = 1 →
      (get_columns p schema pk_columns unique_columns rs).tableConstraints
        = none
      ∧ ∀ col ∈ (get_columns p schema pk_columns unique_columns rs).columns,
          (col.constraint = some Constraint.PRIMARY_KEY ↔ col.name ∈ pk_columns))
    ∧ (∀ (p : ColumnTypeParser) (schema : String)
       (pk_columns unique_columns : List String) (rs : List RawColumn),
      (∀ c ∈ rs, c.rawDataType = none) →
      (∀ c ∈ rs, (extracted_column p schema pk_columns unique_columns c).isSome) →
      1 < pk_columns.length →
      (∃ c ∈ rs, c.name ∈ pk_columns) →
      (get_columns p schema pk_columns unique_columns rs).tableConstraints
        = some [{ constraintType := "PRIMARY_KEY", columns := pk_columns }]
      ∧ ∀ col ∈ (get_columns p schema pk_columns unique_columns rs).columns,
          col.constraint ≠ some Constraint.PRIMARY_KEY)
    ∧ (∀ (p : ColumnTypeParser) (schema : String)
       (pk_columns unique_columns : List String) (c : RawColumn) (r : String)
       (ec : ExtractedColumn),
      c.rawDataType = some r →
      py_startswith r schema = false →
      extract_column p schema pk_columns unique_columns c = .ok ec →
      ec.column.constraint = none ∧ ec.setsTableConstraint = false) := by
  refine ⟨?_, ?_, ?_⟩
  · intro p schema pk_columns unique_columns rs hgen hlen
    constructor
    · rw [get_columns_tc]
      rw [if_neg]
      intro hany
      rcases List.any_eq_true.mp hany with ⟨c, hc, hset⟩
      unfold sets_table_constraint at hset
      cases hx : extract_column p schema pk_columns unique_columns c with
      | error e => rw [hx] at hset; cases hset
      | ok ec =>
        rw [hx] at hset
        dsimp only at hset
        rcases extract_generic_spec p schema pk_columns unique_columns
          (hgen c hc) hx with ⟨-, -, hs⟩
        rw [hs, hlen] at hset
        simp at hset
    · intro col hcol
      rcases mem_get_columns hcol with ⟨c, hc, ec, hx, hec⟩
      rcases extract_generic_spec p schema pk_columns unique_columns
        (hgen c hc) hx with ⟨hname, hcons, -⟩
      rw [← hec, hcons, hname]
      exact gcc_single_pk pk_columns unique_columns c.nullable hlen
  · intro p schema pk_columns unique_columns rs hgen hok hlen hex
    constructor
    · rw [get_columns_tc]
      rw [if_pos]
      rcases hex with ⟨c, hc, hcpk⟩
      refine List.any_eq_true.mpr ⟨c, hc, ?_⟩
      unfold sets_table_constraint
      have hs := hok c hc
      unfold extracted_column at hs
      cases hx : extract_column p schema pk_columns unique_columns c with
      | error e => rw [hx] at hs; cases hs
      | ok ec =>
        dsimp only
        rcases extract_generic_spec p schema pk_columns unique_columns
          (hgen c hc) hx with ⟨-, -, hset⟩
        rw [hset, gcc_multi_pk pk_columns unique_columns c.nullable hcpk hlen]
        simp [hlen]
    · intro col hcol
      rcases mem_get_columns hcol with ⟨c, hc, ec, hx, hec⟩
      rcases extract_generic_spec p schema pk_columns unique_columns
        (hgen c hc) hx with ⟨hname, hcons, -⟩
      rw [← hec, hcons]
      by_cases hpk : c.name ∈ pk_columns
      · rw [gcc_multi_pk pk_columns unique_columns c.nullable hpk hlen]
        simp
      · exact gcc_not_pk_ne pk_columns unique_columns c.nullable hpk
  · intro p schema pk_columns unique_columns c r ec hraw hsw hx
    unfold extract_column at hx
    rw [hraw] at hx
    dsimp only at hx
    rw [hsw] at hx
    rw [if_neg Bool.false_ne_true] at hx
    cases hx
    exact ⟨rfl, rfl⟩

theorem claim1_pk_representation_witness :
    ((get_columns specParser "sch" ["a"] []
        [{ name := "a", typeStr := "VARCHAR(50)", nullable := false },
         { name := "b", typeStr := "INTEGER", nullable := true }]).tableConstraints
      = none
    ∧ ∀ col ∈ (get_columns specParser "sch" ["a"] []
        [{ name := "a", typeStr := "VARCHAR(50)", nullable := false },
         { name := "b", typeStr := "INTEGER", nullable := true }]).columns,
        (col.constraint = some Constraint.PRIMARY_KEY ↔ col.name ∈ ["a"]))
    ∧ ((get_columns specParser "sch" ["a", "b"] []
        [{ name := "a", typeStr := "VARCHAR(50)", nullable := false },
         { name := "b", typeStr := "INTEGER", nullable := true }]).tableConstraints
      = some [{ constraintType := "PRIMARY_KEY", columns := ["a", "b"] }]
    ∧ ∀ col ∈ (get_columns specParser "sch" ["a", "b"] []
        [{ name := "a", typeStr := "VARCHAR(50)", nullable := false },
         { name := "b", typeStr := "INTEGER", nullable := true }]).columns,
        col.constraint ≠ some Constraint.PRIMARY_KEY)
    ∧ (c1rawec.column.constraint = none
      ∧ c1rawec.setsTableConstraint = false) :=
  ⟨claim1_pk_representation.1 specParser "sch" ["a"] []
     [{ name := "a", typeStr := "VARCHAR(50)", nullable := false },
      { name := "b", typeStr := "INTEGER", nullable := true }]
     (by decide) (by decide),
   claim1_pk_representation.2.1 specParser "sch" ["a", "b"] []
     [{ name := "a", typeStr := "VARCHAR(50)", nullable := false },
      { name := "b", typeStr := "INTEGER", nullable := true }]
     (by decide) (by decide) (by decide)
     ⟨{ name := "a", typeStr := "VARCHAR(50)", nullable := false },
      by decide, by decide⟩,
   claim1_pk_representation.2.2 specParser "sch" ["a"] [] c1rawpk "varchar"
     c1rawec rfl (by decide) (by decide)⟩

/-- Claim C3: when extraction of exactly one column in the raw list raises,
the returned column list keeps every other column in order (so its length is
one less than the raw list's), and the per-table body still assembles and
yields the table entity instead of recording a failure. -/
theorem claim3_column_error_isolation (p : ColumnTypeParser) (schema : String)
    (pk_columns unique_columns : List String)
    (rs1 rs2 : List RawColumn) (bad : RawColumn) (inp : TableBuildInput)
    (h1 : ∀ c ∈ rs1, (extracted_column p schema pk_columns unique_columns c).isSome)
    (h2 : ∀ c ∈ rs2, (extracted_column p schema pk_columns unique_columns c).isSome)
    (hbad : extract_column p schema pk_columns unique_columns bad = .error ())
    (hrc : inp.rawColumns = rs1 ++ bad :: rs2)
    (hpk : inp.pkColumns = pk_columns)
    (huq : inp.uniqueColumns = unique_columns)
    (hfl : inp.filteredOut = false) (hot : inp.otherFailure = false) :
    ((get_columns p schema pk_columns unique_columns
        (rs1 ++ bad :: rs2)).columns
      = rs1.filterMap (extracted_column p schema pk_columns unique_columns)
        ++ rs2.filterMap (extracted_column p schema pk_columns unique_columns))
    ∧ ((get_columns p schema pk_columns unique_columns
        (rs1 ++ bad :: rs2)).columns.length = rs1.length + rs2.length)
    ∧ (∃ t, process_table p schema inp = .yielded t
        ∧ t.columns.length = rs1.length + rs2.length)
    ∧ ∀ (service database : String) (st : WalkState),
        (fetch_tables p service database schema [inp] st).failures
          = st.failures := by
  have hbadnone :
      extracted_column p schema pk_columns unique_columns bad = none := by
    unfold extracted_column
    rw [hbad]
  have hcols : (get_columns p schema pk_columns unique_columns
      (rs1 ++ bad :: rs2)).columns
      = rs1.filterMap (extracted_column p schema pk_columns unique_columns)
        ++ rs2.filterMap (extracted_column p schema pk_columns unique_columns) := by
    unfold get_columns
    rw [get_columns_aux_columns]
    simp [List.filterMap_append, List.filterMap_cons, hbadnone]
  have hlen : (get_columns p schema pk_columns unique_columns
      (rs1 ++ bad :: rs2)).columns.length = rs1.length + rs2.length := by
    rw [hcols, List.length_append,
        length_filterMap_of_all_some _ rs1 h1,
        length_filterMap_of_all_some _ rs2 h2]
  have hyield : process_table p schema inp
      = .yielded { name := inp.tableName, tableType := "Regular",
                   description :=
                     (match inp.descFetch with
                      | .error _ => none
                      | .ok t => t).getD " ",
                   columns := (get_columns p schema pk_columns unique_columns
                     (rs1 ++ bad :: rs2)).columns,
                   tableConstraints :=
                     (get_columns p schema pk_columns unique_columns
                       (rs1 ++ bad :: rs2)).tableConstraints } := by
    unfold process_table
    rw [hfl, hot, hpk, huq, hrc]
    rfl
  refine ⟨hcols, hlen, ⟨_, hyield, hlen⟩, ?_⟩
  intro service database st
  show (fetch_tables p service database schema []
    (table_step p service database schema st inp)).failures = st.failures
  unfold fetch_tables table_step
  rw [hyield]

theorem claim3_column_error_isolation_witness :
    (extract_column specParser "sch" ["a"] []
        { name := "x", typeStr := "boom_type", nullable := true }
      = .error ())
    ∧ ((get_columns specParser "sch" ["a"] []
        [{ name := "a", typeStr := "VARCHAR(50)", nullable := false },
         { name := "x", typeStr := "boom_type", nullable := true },
         { name := "b", typeStr := "INTEGER", nullable := true }]).columns.length
      = 2)
    ∧ (∃ t, process_table specParser "sch"
        { tableName := "t", filteredOut := false, descFetch := .ok none,
          pkColumns := ["a"], uniqueColumns := [],
          rawColumns :=
            [{ name := "a", typeStr := "VARCHAR(50)", nullable := false },
             { name := "x", typeStr := "boom_type", nullable := true },
             { name := "b", typeStr := "INTEGER", nullable := true }],
          otherFailure := false } = .yielded t
        ∧ t.columns.length = 2) := by
  have h := claim3_column_error_isolation specParser "sch" ["a"] []
    [{ name := "a", typeStr := "VARCHAR(50)", nullable := false }]
    [{ name := "b", typeStr := "INTEGER", nullable := true }]
    { name := "x", typeStr := "boom_type", nullable := true }
    { tableName := "t", filteredOut := false, descFetch := .ok none,
      pkColumns := ["a"], uniqueColumns := [],
      rawColumns :=
        [{ name := "a", typeStr := "VARCHAR(50)", nullable := false },
         { name := "x", typeStr := "boom_type", nullable := true },
         { name := "b", typeStr := "INTEGER", nullable := true }],
      otherFailure := false }
    (by decide) (by decide) (by decide) rfl rfl rfl rfl rfl
  exact ⟨by decide, h.2.1, h.2.2.1⟩

/-- Claim C5: after following the catalog listing's continuation cursor to
exhaustion, reconciliation yields a DeleteTable exactly for each previously
known table whose fully qualified name is absent from the observed set, and
in particular prior tables t1, t2, t3 with observed t1, t3 yield exactly the
one record for t2, even across a page boundary. -/
theorem claim5_delete_reconciliation :
    (∀ (pages : List (List CatalogTable)) (observed : List String)
       (d : DeleteTable),
      d ∈ delete_tables (build_database_state pages) observed
        ↔ d.table ∈ build_database_state pages
          ∧ d.table.fullyQualifiedName ∉ observed)
    ∧ delete_tables
        (build_database_state
          [[{ fullyQualifiedName := "svc.db.s.t1" },
            { fullyQualifiedName := "svc.db.s.t2" }],
           [{ fullyQualifiedName := "svc.db.s.t3" }]])
        ["svc.db.s.t1", "svc.db.s.t3"]
        = [{ table := { fullyQualifiedName := "svc.db.s.t2" } }] :=
  ⟨fun pages observed d => delete_tables_mem observed d _, by decide⟩

lemma fetch_tables_failures_ext (p : ColumnTypeParser)
    (service database schema : String) :
    ∀ (inputs : List TableBuildInput) (st : WalkState),
      ∃ l, (fetch_tables p service database schema inputs st).failures
        = st.failures ++ l := by
  intro inputs
  induction inputs with
  | nil => intro st; exact ⟨[], by simp [fetch_tables]⟩
  | cons inp rest ih =>
    intro st
    show ∃ l, (fetch_tables p service database schema rest
      (table_step p service database schema st inp)).failures
      = st.failures ++ l
    rcases ih (table_step p service database schema st inp) with ⟨l, hl⟩
    rw [hl]
    unfold table_step
    cases hpt : process_table p schema inp <;> dsimp only
    · exact ⟨l, rfl⟩
    · exact ⟨[service ++ "." ++ inp.tableName] ++ l, by simp⟩
    · exact ⟨l, rfl⟩

lemma fetch_views_warnings_ext (p : ColumnTypeParser)
    (service database schema : String) :
    ∀ (inputs : List ViewBuildInput) (st : WalkState),
      ∃ l, (fetch_views p service database schema inputs st).warnings
        = st.warnings ++ l := by
  intro inputs
  induction inputs with
  | nil => intro st; exact ⟨[], by simp [fetch_views]⟩
  | cons inp rest ih =>
    intro st
    show ∃ l, (fetch_views p service database schema rest
      (view_step p service database schema st inp)).warnings
      = st.warnings ++ l
    rcases ih (view_step p service database schema st inp) with ⟨l, hl⟩
    rw [hl]
    unfold view_step
    cases hpt : process_view p schema inp <;> dsimp only
    · exact ⟨l, rfl⟩
    · exact ⟨[service ++ "." ++ inp.viewName] ++ l, by simp⟩
    · exact ⟨l, rfl⟩

/-- Counterexample to claim C4 as stated: a view whose per-entity build
raises is recorded in SourceStatus.warnings, not in SourceStatus.failures,
which stays empty. -/
theorem claim4_counterexample :
    (fetch_views specParser "svc" "db" "sch"
      [{ viewName := "badview", filteredOut := false, viewDefFetch := .ok none,
         descFetch := .ok none, pkColumns := [], uniqueColumns := [],
         rawColumns := [], otherFailure := true }] walk0).failures = []
    ∧ (fetch_views specParser "svc" "db" "sch"
      [{ viewName := "badview", filteredOut := false, viewDefFetch := .ok none,
         descFetch := .ok none, pkColumns := [], uniqueColumns := [],
         rawColumns := [], otherFailure := true }] walk0).warnings
      = ["svc.badview"] := by
  constructor <;> rfl

/-- Claim C4 as amended: a table whose build raises has its service-qualified
name appended to SourceStatus.failures, while a view whose build raises has
it appended to SourceStatus.warnings; in both cases the walk continues with
the remaining entities of the schema and the traversal itself returns
normally (the step functions are total, so no exception propagates). -/
theorem claim4_entity_error_boundary :
    (∀ (p : ColumnTypeParser) (service database schema : String)
       (bad : TableBuildInput) (rest : List TableBuildInput) (st : WalkState),
      bad.filteredOut = false → bad.otherFailure = true →
      fetch_tables p service database schema (bad :: rest) st
        = fetch_tables p service database schema rest
            { st with failures :=
                st.failures ++ [service ++ "." ++ bad.tableName] }
      ∧ (service ++ "." ++ bad.tableName)
          ∈ (fetch_tables p service database schema (bad :: rest) st).failures)
    ∧ (∀ (p : ColumnTypeParser) (service database schema : String)
       (bad : ViewBuildInput) (rest : List ViewBuildInput) (st : WalkState),
      bad.filteredOut = false → bad.otherFailure = true →
      fetch_views p service database schema (bad :: rest) st
        = fetch_views p service database schema rest
            { st with warnings :=
                st.warnings ++ [service ++ "." ++ bad.viewName] }
      ∧ (service ++ "." ++ bad.viewName)
          ∈ (fetch_views p service database schema (bad :: rest) st).warnings) := by
  constructor
  · intro p service database schema bad rest st hfl hot
    have hpt : process_table p schema bad = .failed := by
      unfold process_table
      rw [hfl, hot]
      rfl
    have hstep : table_step p service database schema st bad
        = { st with failures :=
              st.failures ++ [service ++ "." ++ bad.tableName] } := by
      unfold table_step
      rw [hpt]
    constructor
    · show fetch_tables p service database schema rest
        (table_step p service database schema st bad) = _
      rw [hstep]
    · show (service ++ "." ++ bad.tableName)
        ∈ (fetch_tables p service database schema rest
            (table_step p service database schema st bad)).failures
      rcases fetch_tables_failures_ext p service database schema rest
        (table_step p service database schema st bad) with ⟨l, hl⟩
      rw [hl, hstep]
      simp
  · intro p service database schema bad rest st hfl hot
    have hpt : process_view p schema bad = .failed := by
      unfold process_view
      rw [hfl, hot]
      rfl
    have hstep : view_step p service database schema st bad
        = { st with warnings :=
              st.warnings ++ [service ++ "." ++ bad.viewName] } := by
      unfold view_step
      rw [hpt]
    constructor
    · show fetch_views p service database schema rest
        (view_step p service database schema st bad) = _
      rw [hstep]
    · show (service ++ "." ++ bad.viewName)
        ∈ (fetch_views p service database schema rest
            (view_step p service database schema st bad)).warnings
      rcases fetch_views_warnings_ext p service database schema rest
        (view_step p service database schema st bad) with ⟨l, hl⟩
      rw [hl, hstep]
      simp

theorem claim4_entity_error_boundary_witness :
    (fetch_tables specParser "svc" "db" "sch"
        [{ tableName := "badtable", filteredOut := false,
           descFetch := .ok none, pkColumns := [], uniqueColumns := [],
           rawColumns := [], otherFailure := true }] walk0
      = fetch_tables specParser "svc" "db" "sch" []
          { walk0 with failures := walk0.failures ++ ["svc.badtable"] }
    ∧ "svc.badtable" ∈ (fetch_tables specParser "svc" "db" "sch"
        [{ tableName := "badtable", filteredOut := false,
           descFetch := .ok none, pkColumns := [], uniqueColumns := [],
           rawColumns := [], otherFailure := true }] walk0).failures)
    ∧ (fetch_views specParser "svc" "db" "sch"
        [{ viewName := "badview", filteredOut := false,
           viewDefFetch := .ok none, descFetch := .ok none, pkColumns := [],
           uniqueColumns := [], rawColumns := [], otherFailure := true }] walk0
      = fetch_views specParser "svc" "db" "sch" []
          { walk0 with warnings := walk0.warnings ++ ["svc.badview"] }
    ∧ "svc.badview" ∈ (fetch_views specParser "svc" "db" "sch"
        [{ viewName := "badview", filteredOut := false,
           viewDefFetch := .ok none, descFetch := .ok none, pkColumns := [],
           uniqueColumns := [], rawColumns := [], otherFailure := true }]
        walk0).warnings) :=
  ⟨claim4_entity_error_boundary.1 specParser "svc" "db" "sch"
     { tableName := "badtable", filteredOut := false, descFetch := .ok none,
       pkColumns := [], uniqueColumns := [], rawColumns := [],
       otherFailure := true } [] walk0 rfl rfl,
   claim4_entity_error_boundary.2 specParser "svc" "db" "sch"
     { viewName := "badview", filteredOut := false, viewDefFetch := .ok none,
       descFetch := .ok none, pkColumns := [], uniqueColumns := [],
       rawColumns := [], otherFailure := true } [] walk0 rfl rfl⟩

/-- Claim C7: a dbt dependency reference of shape type.database.table
resolves to the fully qualified name derived from its table piece, and a
malformed reference among several is skipped individually while the others
still resolve in order. -/
theorem claim7_upstream_lineage :
    (∀ service : String,
      parse_data_model_upstream service (some ["model.proj.upstream_tbl"])
        = [dbt_table_fqdn service "upstream_tbl"])
    ∧ (∀ service n1 bad n3 f1 f3 : String,
      parse_upstream_node service n1 = some f1 →
      parse_upstream_node service n3 = some f3 →
      parse_upstream_node service bad = none →
      parse_data_model_upstream service (some [n1, bad, n3]) = [f1, f3]) := by
  constructor
  · intro service
    have hs : py_split_dot_2 "model.proj.upstream_tbl"
        = ["model", "proj", "upstream_tbl"] := by decide
    simp [parse_data_model_upstream, parse_upstream_node, hs]
  · intro service n1 bad n3 f1 f3 h1 h3 hbad
    simp [parse_data_model_upstream, List.filterMap_cons, h1, h3, hbad]

theorem claim7_upstream_lineage_witness :
    parse_upstream_node "svc" "model.proj.upstream_tbl"
      = some "svc.upstream_tbl"
    ∧ parse_upstream_node "svc" "source.proj.other_tbl"
      = some "svc.other_tbl"
    ∧ parse_upstream_node "svc" "badnode" = none
    ∧ parse_data_model_upstream "svc"
        (some ["model.proj.upstream_tbl", "badnode", "source.proj.other_tbl"])
        = ["svc.upstream_tbl", "svc.other_tbl"] :=
  ⟨by decide, by decide, by decide,
   claim7_upstream_lineage.2 "svc" "model.proj.upstream_tbl" "badnode"
     "source.proj.other_tbl" "svc.upstream_tbl" "svc.other_tbl"
     (by decide) (by decide) (by decide)⟩

/-- Counterexample to claim C6 as stated: the native descriptor
array<varchar(50)> yields canonical type ARRAY and element type VARCHAR,
but its display type is the string array<VARCHAR> with the element in
canonical uppercase, not array<varchar>. -/
theorem claim6_counterexample :
    extracted_column specParser "sch" [] []
      { name := "c", typeStr := "array<varchar(50)>", nullable := true }
      = some { name := "c", dataType := some "ARRAY",
               dataTypeDisplay := some "array<VARCHAR>",
               dataLength := some 1, constraint := some Constraint.NULL,
               arrayDataType := some "VARCHAR" }
    ∧ (some "array<VARCHAR>" : Option String) ≠ some "array<varchar>" := by
  constructor <;> decide

/-- Claim C6 as amended: a generic-path column whose type the parser
classifies as ARRAY gets canonical type ARRAY; whenever the element type
cannot be derived (the element regex does not match the type string, or the
parser returns no type for the matched element), the element type defaults
to VARCHAR without failing the column; the display type is
array<E> where E is the canonical, uppercase element name, so the
descriptor array<varchar(50)> displays as array<VARCHAR>. -/
theorem claim6_array_normalization (p : ColumnTypeParser) (schema : String)
    (pk_columns unique_columns : List String) (c : RawColumn)
    (hraw : c.rawDataType = none)
    (hct : p.getColumnType c.typeStr = .ok (some "ARRAY")) :
    (arrayTypeMatch c.typeStr = none →
      ∃ ec, extract_column p schema pk_columns unique_columns c = .ok ec
        ∧ ec.column.dataType = some "ARRAY"
        ∧ ec.column.arrayDataType = some "VARCHAR"
        ∧ ec.column.dataTypeDisplay = some "array<VARCHAR>")
    ∧ (arrayTypeMatch c.typeStr = some () →
      p.getColumnType (arrayItemMatch c.typeStr) = .ok none →
      ∃ ec, extract_column p schema pk_columns unique_columns c = .ok ec
        ∧ ec.column.dataType = some "ARRAY"
        ∧ ec.column.arrayDataType = some "VARCHAR"
        ∧ ec.column.dataTypeDisplay = some "array<VARCHAR>") := by
  constructor
  · intro hmatch
    unfold extract_column
    rw [hraw, hct]
    dsimp only
    rw [if_neg (fun h => by rw [hmatch] at h; exact absurd h.2 (by decide))]
    exact ⟨_, rfl, by simp [generic_column], by simp [generic_column],
      by simp [generic_column]⟩
  · intro hmatch helem
    unfold extract_column
    rw [hraw, hct]
    dsimp only
    rw [if_pos ⟨rfl, by rw [hmatch]; decide⟩, helem]
    exact ⟨_, rfl, by simp [generic_column], by simp [generic_column],
      by simp [generic_column]⟩

theorem claim6_array_normalization_witness :
    (RawColumn.rawDataType
      { name := "c", typeStr := "array<varchar(50)>", nullable := true } = none)
    ∧ specParser.getColumnType "array<varchar(50)>" = .ok (some "ARRAY")
    ∧ arrayTypeMatch "array<varchar(50)>" = none
    ∧ (∃ ec, extract_column specParser "sch" [] []
          { name := "c", typeStr := "array<varchar(50)>", nullable := true }
          = .ok ec
        ∧ ec.column.dataType = some "ARRAY"
        ∧ ec.column.arrayDataType = some "VARCHAR"
        ∧ ec.column.dataTypeDisplay = some "array<VARCHAR>") :=
  ⟨rfl, by decide, by decide,
   (claim6_array_normalization specParser "sch" [] []
     { name := "c", typeStr := "array<varchar(50)>", nullable := true }
     rfl (by decide)).1 (by decide)⟩

/-- The raw column of the claim C8 counterexample: the driver ships a
raw_data_type describing a struct, which does not start with the schema
name, so the raw path is taken. -/
def c8raw : RawColumn :=
  { name := "c", typeStr := "row(a integer)", nullable := true,
    rawDataType := some "struct<a:int>" }

/-- The extraction outcome of c8raw under specParser. -/
def c8ec : ExtractedColumn :=
  { column := { name := "c", dataType := some "STRUCT",
                dataTypeDisplay := none, dataLength := none,
                constraint := none, arrayDataType := none },
    setsTableConstraint := false, unknownTypeWarning := false }

/-- Counterexample to claim C8 as stated: a successfully extracted column
that takes the raw_data_type path with an unbounded parsed type (here a
struct) has dataLength None, because that path assigns the _check_col_length
result without the one-default applied on the generic path. -/
theorem claim8_counterexample :
    extract_column specParser "sch" [] [] c8raw = .ok c8ec
    ∧ c8ec.column.dataLength = none := by
  constructor <;> decide

/-- Claim C8 as amended: on the generic path every successfully extracted
column has a non-null dataLength, equal to 1 whenever _check_col_length
yields nothing; _check_col_length itself carries the driver length only for
the bounded CHAR, VARCHAR, BINARY and VARBINARY canonical types and answers
1 for those when the driver supplies no concrete length.  Columns built
through the raw_data_type path may instead carry a null dataLength when the
parsed type is unbounded. -/
theorem claim8_data_length :
    (∀ (p : ColumnTypeParser) (schema : String)
       (pk_columns unique_columns : List String) (c : RawColumn)
       (ec : ExtractedColumn),
      c.rawDataType = none →
      extract_column p schema pk_columns unique_columns c = .ok ec →
      ∃ l, ec.column.dataLength = some l
        ∧ ∀ ct, p.getColumnType c.typeStr = .ok ct →
            check_col_length ct c.typeLength = none → l = 1)
    ∧ (∀ dt : String,
      dt ≠ "" →
      (py_upper dt = "CHAR" ∨ py_upper dt = "VARCHAR" ∨
        py_upper dt = "BINARY" ∨ py_upper dt = "VARBINARY") →
      check_col_length (some dt) none = some 1
      ∧ check_col_length (some dt) (some 0) = some 1
      ∧ ∀ n, n ≠ 0 → check_col_length (some dt) (some n) = some n)
    ∧ (∀ (p : ColumnTypeParser) (schema : String)
       (pk_columns unique_columns : List String) (c : RawColumn) (r : String)
       (ec : ExtractedColumn),
      c.rawDataType = some r →
      py_startswith r schema = false →
      extract_column p schema pk_columns unique_columns c = .ok ec →
      ec.column.dataLength
        = check_col_length (some (p.parseDatatypeString r).dataType)
            c.typeLength) := by
  refine ⟨?_, ?_, ?_⟩
  · intro p schema pk_columns unique_columns c ec hraw hx
    rcases extract_generic_dataLength p schema pk_columns unique_columns
      hraw hx with ⟨ct, hct, hdl⟩
    refine ⟨(check_col_length ct c.typeLength).getD 1, hdl, ?_⟩
    intro ct2 hct2 hnone
    rw [hct] at hct2
    cases hct2
    rw [hnone]
    rfl
  · intro dt hne hmem
    refine ⟨?_, ?_, ?_⟩
    · unfold check_col_length
      dsimp only
      rw [if_pos ⟨hne, hmem⟩]
    · unfold check_col_length
      dsimp only
      rw [if_pos ⟨hne, hmem⟩]
      rfl
    · intro n hn
      unfold check_col_length
      dsimp only
      rw [if_pos ⟨hne, hmem⟩]
      simp [hn]
  · intro p schema pk_columns unique_columns c r ec hraw hsw hx
    unfold extract_column at hx
    rw [hraw] at hx
    dsimp only at hx
    rw [hsw] at hx
    rw [if_neg Bool.false_ne_true] at hx
    cases hx
    rfl

theorem claim8_data_length_witness :
    (∃ l, ((generic_column [] []
        { name := "c", typeStr := "mystery", nullable := true }
        none none none).column.dataLength = some l)
      ∧ ∀ ct, specParser.getColumnType "mystery" = .ok ct →
          check_col_length ct none = none → l = 1)
    ∧ (check_col_length (some "VARCHAR") none = some 1
      ∧ check_col_length (some "VARCHAR") (some 0) = some 1
      ∧ ∀ n, n ≠ 0 → check_col_length (some "VARCHAR") (some n) = some n)
    ∧ (c8ec.column.dataLength
        = check_col_length
            (some (specParser.parseDatatypeString "struct<a:int>").dataType)
            c8raw.typeLength) := by
  have h1 := claim8_data_length.1 specParser "sch" [] []
    { name := "c", typeStr := "mystery", nullable := true }
    (generic_column [] []
      { name := "c", typeStr := "mystery", nullable := true } none none none)
    rfl (by decide)
  have h2 := claim8_data_length.2.1 "VARCHAR" (by decide) (Or.inr (Or.inl rfl))
  have h3 := claim8_data_length.2.2 specParser "sch" [] [] c8raw
    "struct<a:int>" c8ec rfl (by decide) (by decide)
  exact ⟨h1, h2, h3⟩

/-- Counterexample to claim C9 as stated: a table whose description fetch
raises is assembled with the one-character blank description, which is not
the empty string. -/
theorem claim9_counterexample :
    process_table specParser "sch"
      { tableName := "t", filteredOut := false, descFetch := .error (),
        pkColumns := [], uniqueColumns := [], rawColumns := [],
        otherFailure := false }
      = .yielded { name := "t", tableType := "Regular", description := " ",
                   columns := [], tableConstraints := none }
    ∧ (" " : String) ≠ "" := by
  constructor <;> decide

/-- Claim C9 as amended: a failing description fetch is non-fatal; the table
entity is still yielded with the single-space description that fetch_tables
substitutes for the missing value, while a view in the same situation gets
the empty string. -/
theorem claim9_description_fallback :
    (∀ (p : ColumnTypeParser) (schema : String) (inp : TableBuildInput),
      inp.filteredOut = false → inp.otherFailure = false →
      inp.descFetch = .error () →
      ∃ t, process_table p schema inp = .yielded t ∧ t.description = " ")
    ∧ (∀ (p : ColumnTypeParser) (schema : String) (inp : ViewBuildInput),
      inp.filteredOut = false → inp.otherFailure = false →
      inp.descFetch = .error () →
      ∃ t, process_view p schema inp = .yielded t ∧ t.description = "") := by
  constructor
  · intro p schema inp hfl hot hdesc
    unfold process_table
    rw [hfl, hot, hdesc]
    exact ⟨_, rfl, rfl⟩
  · intro p schema inp hfl hot hdesc
    unfold process_view
    rw [hfl, hot, hdesc]
    exact ⟨_, rfl, rfl⟩

theorem claim9_description_fallback_witness :
    (∃ t, process_table specParser "sch"
        { tableName := "t", filteredOut := false, descFetch := .error (),
          pkColumns := [], uniqueColumns := [], rawColumns := [],
          otherFailure := false } = .yielded t
      ∧ t.description = " ")
    ∧ (∃ t, process_view specParser "sch"
        { viewName := "v", filteredOut := false, viewDefFetch := .ok none,
          descFetch := .error (), pkColumns := [], uniqueColumns := [],
          rawColumns := [], otherFailure := false } = .yielded t
      ∧ t.description = "") :=
  ⟨claim9_description_fallback.1 specParser "sch"
     { tableName := "t", filteredOut := false, descFetch := .error (),
       pkColumns := [], uniqueColumns := [], rawColumns := [],
       otherFailure := false } rfl rfl rfl,
   claim9_description_fallback.2 specParser "sch"
     { viewName := "v", filteredOut := false, viewDefFetch := .ok none,
       descFetch := .error (), pkColumns := [], uniqueColumns := [],
       rawColumns := [], otherFailure := false } rfl rfl rfl⟩

end OMeta
